import Mathlib

/-!
# Sign-up form (`src/SignUp.jsx`): validation and submission

A shallow embedding of the `SignUp` React component: its state hooks, the
validation effect (`useEffect`), `isFormValid`, `handleSignUp` and the
change handler of the e-mail input, together with the properties of the
registration workflow that are proved about them.

JavaScript strings are sequences of UTF-16 code units; they are embedded as
lists of natural numbers, so that `length`, `trim` and the regular
expressions (which have no `u` flag) act on code units as they do in the
source.
-/

namespace SignUp

/-! ## JavaScript strings -/

/-- A JavaScript string: its UTF-16 code units, in order. -/
abbrev JSString := List Nat

/-- UTF-16 code units of one Unicode scalar value. -/
def utf16Char (c : Char) : List Nat :=
  if c.toNat < 65536 then [c.toNat]
  else [55296 + (c.toNat - 65536) / 1024, 56320 + (c.toNat - 65536) % 1024]

/-- The JavaScript string written by a literal. -/
def utf16 (s : String) : JSString :=
  s.toList.flatMap utf16Char

/-- ECMAScript `WhiteSpace` and `LineTerminator` code points: the set removed by
`String.prototype.trim` and matched by `\s` in a regular expression. -/
def isWhiteSpace (c : Nat) : Bool :=
  c == 9 || c == 10 || c == 11 || c == 12 || c == 13 || c == 32 || c == 160 ||
  c == 5760 || (8192 ≤ c && c ≤ 8202) || c == 8232 || c == 8233 || c == 8239 ||
  c == 8287 || c == 12288 || c == 65279

/-- `String.prototype.trim`: white space removed from both ends. -/
def trim (s : JSString) : JSString :=
  ((s.dropWhile isWhiteSpace).reverse.dropWhile isWhiteSpace).reverse

/-- Whether `t` starts with `p`. -/
def startsWith : JSString → JSString → Bool
  | _, [] => true
  | [], _ :: _ => false
  | c :: t, d :: p => c == d && startsWith t p

/-- `String.prototype.includes`: `p` occurs in `s` as a contiguous substring. -/
def includes : JSString → JSString → Bool
  | [], p => startsWith [] p
  | c :: s, p => startsWith (c :: s) p || includes s p

/-- JavaScript truthiness of a string: only the empty string is falsy. -/
def truthy (s : JSString) : Bool := !s.isEmpty

/-! ## Regular expressions -/

/-- The fragment of regular expressions used by the component. A class is given
by its membership test on code units. -/
inductive RE where
  | empty : RE
  | eps : RE
  | cls (p : Nat → Bool) : RE
  | seq (r s : RE) : RE
  | alt (r s : RE) : RE
  | star (r : RE) : RE

namespace RE

/-- The pattern `r+`. -/
def plus (r : RE) : RE := seq r (star r)

/-- A single literal character. -/
def chr (c : Char) : RE := cls (fun d => d == c.toNat)

/-- Whether the expression accepts the empty string. -/
def nullable : RE → Bool
  | empty => false
  | eps => true
  | cls _ => false
  | seq r s => nullable r && nullable s
  | alt r s => nullable r || nullable s
  | star _ => true

/-- Brzozowski derivative with respect to one code unit. -/
def deriv : RE → Nat → RE
  | empty, _ => empty
  | eps, _ => empty
  | cls p, c => if p c then eps else empty
  | seq r s, c => if nullable r then alt (seq (deriv r c) s) (deriv s c) else seq (deriv r c) s
  | alt r s, c => alt (deriv r c) (deriv s c)
  | star r, c => seq (deriv r c) (star r)

/-- Anchored match: the whole string is in the language, as for `/^r$/.test(s)`. -/
def fullMatch : RE → JSString → Bool
  | r, [] => nullable r
  | r, c :: s => fullMatch (deriv r c) s

/-- Any code unit at all. -/
def anyUnit : RE := cls (fun _ => true)

/-- Unanchored match: some substring is in the language, as for `/r/.test(s)`. -/
def search (r : RE) (s : JSString) : Bool :=
  fullMatch (seq (star anyUnit) (seq r (star anyUnit))) s

end RE

/-! ## Component state and collaborators -/

/-- The `severity` of a snackbar notification. -/
inductive Severity where
  | success
  | error
  deriving DecidableEq

/-- The request body of `UserSignUp`. -/
structure Payload where
  name : JSString
  email : JSString
  password : JSString
  deriving DecidableEq

/-- A call made to a collaborator: `dispatch(openSnackbar(..))`, `UserSignUp(..)`,
`dispatch(loginSuccess(..))` or `setOpenAuth(..)`. The response data `D` is not inspected
by the component. -/
inductive Effect (D : Type) where
  | openSnackbar (message : JSString) (severity : Severity)
  | userSignUp (request : Payload)
  | loginSuccess (data : D)
  | setOpenAuth (value : Bool)
  deriving DecidableEq

/-- The state hooks of the component. -/
structure State where
  first : JSString
  last : JSString
  email : JSString
  password : JSString
  confirm : JSString
  loading : Bool
  disabled : Bool
  emailError : JSString
  serverEmailError : JSString
  matchError : JSString
  strength : ℚ
  deriving DecidableEq

/-- The object `err.response.data`, read through its `message`. -/
structure ErrData where
  message : Option JSString

/-- The object `err.response`. -/
structure ErrResponse where
  status : Option Nat
  data : Option ErrData

/-- A value caught by the `catch` block, read through `response` and `message`. -/
structure Err where
  response : Option ErrResponse
  message : Option JSString

/-- The call of the success path that throws, when one does: reading `res.data` and
dispatching `loginSuccess`, dispatching `openSnackbar`, or calling `setOpenAuth`. -/
inductive Stage where
  | loginSuccess
  | openSnackbar
  | setOpenAuth

/-- What happens once `UserSignUp` has been called: the promise is fulfilled with a
response carrying `data` and the success path runs to its end; the promise is rejected
with `err`; or the promise is fulfilled and the call `stage` of the success path throws
`err`. -/
inductive Outcome (D : Type) where
  | fulfilled (data : D)
  | rejected (err : Err)
  | faulted (data : D) (stage : Stage) (err : Err)

/-! ## The validation effect -/

/-- The class `[^\s@]`. -/
def notSpaceAt (c : Nat) : Bool := !(isWhiteSpace c || c == '@'.toNat)

/-- The pattern `/^[^\s@]+@[^\s@]+\.[^\s@]+$/`, without its anchors. -/
def emailPattern : RE :=
  .seq (.plus (.cls notSpaceAt))
    (.seq (.chr '@') (.seq (.plus (.cls notSpaceAt)) (.seq (.chr '.') (.plus (.cls notSpaceAt)))))

/-- The class `[a-z]`. -/
def isLower (c : Nat) : Bool := 'a'.toNat ≤ c && c ≤ 'z'.toNat

/-- The class `[A-Z]`. -/
def isUpper (c : Nat) : Bool := 'A'.toNat ≤ c && c ≤ 'Z'.toNat

/-- The class `\d`. -/
def isDigit (c : Nat) : Bool := '0'.toNat ≤ c && c ≤ '9'.toNat

/-- The members of the class `[!@#$%^&*(),.?":{}|<>]`. -/
def symbolSet : JSString := utf16 "!@#$%^&*(),.?\":\x7b\x7d|<>"

/-- The class `[!@#$%^&*(),.?":{}|<>]`. -/
def isSymbol (c : Nat) : Bool := symbolSet.contains c

/-- The value given to `setEmailError`: `email && !emailPattern.test(email)` selects
the message, anything else the empty string. -/
def validateEmailFormat (email : JSString) : JSString :=
  if truthy email && !emailPattern.fullMatch email then utf16 "Please enter a valid email address"
  else utf16 ""

/-- The number `classes` of `calcStrength`. -/
def classes (pwd : JSString) : Nat :=
  (if RE.search (.cls isLower) pwd then 1 else 0) +
  (if RE.search (.cls isUpper) pwd then 1 else 0) +
  (if RE.search (.cls isDigit) pwd then 1 else 0) +
  (if RE.search (.cls isSymbol) pwd then 1 else 0)

/-- The function `calcStrength`. JavaScript numbers are binary64; `classes / 4` and its
product with 100 are exactly representable for `classes ≤ 4`, so the arithmetic is
carried out in the rationals. -/
def calcStrength (pwd : JSString) : ℚ :=
  if !truthy pwd || pwd.length < 6 then 0
  else ((classes pwd : ℚ) / 4) * 100

/-- The value given to `setMatchError`. -/
def validateConfirmation (password confirm : JSString) : JSString :=
  if truthy confirm && password != confirm then utf16 "Passwords do not match" else utf16 ""

/-- The body of the `useEffect` hook: the three derived values are recomputed from the
current fields. -/
def validationEffect (s : State) : State :=
  { s with
    emailError := validateEmailFormat s.email
    strength := calcStrength s.password
    matchError := validateConfirmation s.password s.confirm }

/-! ## Submission -/

/-- The function `isFormValid`: its return value and the notifications it dispatches. -/
def isFormValid {D : Type} (s : State) : Bool × List (Effect D) :=
  if !truthy s.first || !truthy s.last || !truthy s.email || !truthy s.password ||
      !truthy s.confirm then
    (false, [.openSnackbar (utf16 "Please fill in all fields") .error])
  else if s.password.length < 6 then
    (false, [.openSnackbar (utf16 "Password must be at least 6 characters") .error])
  else if truthy s.emailError || truthy s.matchError then (false, [])
  else (true, [])

/-- The argument of `UserSignUp`. `toLowerCase` is the host function
`String.prototype.toLowerCase`. -/
def payload (toLowerCase : JSString → JSString) (s : State) : Payload :=
  { name := trim s.first ++ utf16 " " ++ trim s.last
    email := toLowerCase (trim s.email)
    password := s.password }

/-- The `try` block of `handleSignUp`: the error it throws, if any, and the calls made
before that. -/
def tryBlock {D : Type} (toLowerCase : JSString → JSString) (s : State) :
    Outcome D → Option Err × List (Effect D)
  | .rejected err => (some err, [.userSignUp (payload toLowerCase s)])
  | .faulted _ .loginSuccess err => (some err, [.userSignUp (payload toLowerCase s)])
  | .faulted data .openSnackbar err =>
    (some err, [.userSignUp (payload toLowerCase s), .loginSuccess data])
  | .faulted data .setOpenAuth err =>
    (some err, [.userSignUp (payload toLowerCase s), .loginSuccess data,
      .openSnackbar (utf16 "Sign-up successful!") .success])
  | .fulfilled data =>
    (none, [.userSignUp (payload toLowerCase s), .loginSuccess data,
      .openSnackbar (utf16 "Sign-up successful!") .success, .setOpenAuth false])

/-- The value of `a || b` for an optional string `a`: `undefined` and the empty string are
falsy. -/
def orDefault (a : Option JSString) (b : JSString) : JSString :=
  match a with
  | some m => if truthy m then m else b
  | none => b

/-- The expression `err.response?.status`. -/
def Err.status (err : Err) : Option Nat := err.response.bind (fun r => r.status)

/-- The expression `err.response?.data?.message`. -/
def Err.serverMessage (err : Err) : Option JSString :=
  (err.response.bind (fun r => r.data)).bind (fun d => d.message)

/-- The `catch` block of `handleSignUp`. -/
def catchBlock {D : Type} (s : State) (err : Err) : State × List (Effect D) :=
  if err.status = some 409 then
    ({ s with serverEmailError := orDefault err.serverMessage (utf16 "Email already registered") },
      [])
  else
    let msg := orDefault err.serverMessage
      (if (match err.message with
          | some m => includes m (utf16 "Network")
          | none => false)
        then utf16 "Network error, please check your connection"
        else utf16 "Something went wrong. Try again.")
    (s, [.openSnackbar msg .error])

/-- The `finally` block of `handleSignUp`. -/
def finallyBlock (s : State) : State :=
  { s with loading := false, disabled := false }

/-- One run of `handleSignUp`: the component state while the remote call is awaited (when
it is issued), the state when the handler returns, and the calls made to the
collaborators, in order. -/
structure Run (D : Type) where
  awaiting : Option State
  final : State
  effects : List (Effect D)

/-- The function `handleSignUp`, run on the state of the render it closes over. -/
def handleSignUp {D : Type} (toLowerCase : JSString → JSString) (s : State) (o : Outcome D) :
    Run D :=
  let v : Bool × List (Effect D) := isFormValid s
  if !v.1 then { awaiting := none, final := s, effects := v.2 }
  else
    let s1 : State := { s with loading := true, disabled := true }
    let t := tryBlock toLowerCase s o
    let c : State × List (Effect D) :=
      match t.1 with
      | some err => catchBlock s1 err
      | none => (s1, [])
    { awaiting := some s1, final := finallyBlock c.1, effects := v.2 ++ t.2 ++ c.2 }

/-- The `handelChange` handler of the e-mail input. -/
def handleEmailChange (value : JSString) (s : State) : State :=
  { s with email := value, serverEmailError := utf16 "" }

/-- The field-change event of the e-mail input: the handler, then the validation effect
when one of its dependencies `[email, password, confirm]` has changed. -/
def emailChanged (value : JSString) (s : State) : State :=
  let t := handleEmailChange value s
  if t.email = s.email ∧ t.password = s.password ∧ t.confirm = s.confirm then t
  else validationEffect t

/-! ## Observations on a run -/

/-- The notifications dispatched with `openSnackbar`. -/
def notifications {D : Type} : List (Effect D) → List (JSString × Severity)
  | [] => []
  | .openSnackbar m v :: es => (m, v) :: notifications es
  | _ :: es => notifications es

/-- The requests sent with `UserSignUp`. -/
def remoteCalls {D : Type} : List (Effect D) → List Payload
  | [] => []
  | .userSignUp p :: es => p :: remoteCalls es
  | _ :: es => remoteCalls es

/-- The session data dispatched with `loginSuccess`. -/
def sessionWrites {D : Type} : List (Effect D) → List D
  | [] => []
  | .loginSuccess d :: es => d :: sessionWrites es
  | _ :: es => sessionWrites es

/-- The arguments passed to `setOpenAuth`. -/
def panelSignals {D : Type} : List (Effect D) → List Bool
  | [] => []
  | .setOpenAuth b :: es => b :: panelSignals es
  | _ :: es => panelSignals es

/-- All five fields are non-empty strings. -/
def AllFilled (s : State) : Prop :=
  s.first ≠ [] ∧ s.last ≠ [] ∧ s.email ≠ [] ∧ s.password ≠ [] ∧ s.confirm ≠ []

/-- The form passes the three gates of `isFormValid`. -/
def PassesGates (s : State) : Prop :=
  AllFilled s ∧ 6 ≤ s.password.length ∧ s.emailError = [] ∧ s.matchError = []

/-- A string is empty or made of white space only. -/
def Blank (s : JSString) : Prop := ∀ c ∈ s, isWhiteSpace c = true

/-- `String.prototype.toLowerCase` on strings of ASCII code units, where it maps `A`-`Z` to
`a`-`z` and keeps every other code unit. -/
def asciiLower (s : JSString) : JSString :=
  s.map (fun c => if isUpper c then c + 32 else c)

/-! ## Vocabulary of the specification -/

/-- The password contains a lowercase letter `a`-`z`. -/
def HasLower (pwd : JSString) : Prop := ∃ c ∈ pwd, 'a'.toNat ≤ c ∧ c ≤ 'z'.toNat

/-- The password contains an uppercase letter `A`-`Z`. -/
def HasUpper (pwd : JSString) : Prop := ∃ c ∈ pwd, 'A'.toNat ≤ c ∧ c ≤ 'Z'.toNat

/-- The password contains a digit `0`-`9`. -/
def HasDigit (pwd : JSString) : Prop := ∃ c ∈ pwd, '0'.toNat ≤ c ∧ c ≤ '9'.toNat

/-- The password contains one of the symbols of the fixed set. -/
def HasSymbol (pwd : JSString) : Prop := ∃ c ∈ pwd, c ∈ utf16 "!@#$%^&*(),.?\":\x7b\x7d|<>"

instance (pwd : JSString) : Decidable (HasLower pwd) := by unfold HasLower; infer_instance

instance (pwd : JSString) : Decidable (HasUpper pwd) := by unfold HasUpper; infer_instance

instance (pwd : JSString) : Decidable (HasDigit pwd) := by unfold HasDigit; infer_instance

instance (pwd : JSString) : Decidable (HasSymbol pwd) := by unfold HasSymbol; infer_instance

/-- The number of character classes present in the password. -/
def classesPresent (pwd : JSString) : Nat :=
  (if HasLower pwd then 1 else 0) + (if HasUpper pwd then 1 else 0) +
  (if HasDigit pwd then 1 else 0) + (if HasSymbol pwd then 1 else 0)

/-- The part of a string before its first `@`. -/
def localPart (s : JSString) : JSString := s.takeWhile (fun c => c != '@'.toNat)

/-- The part of a string after its first `@`. -/
def domainPart (s : JSString) : JSString := (s.dropWhile (fun c => c != '@'.toNat)).drop 1

/-- The shape in the wording of the specification: exactly one `@`, at least one character
before and after it, a `.` somewhere after it, and no white space. -/
def ClaimedEmailShape (s : JSString) : Prop :=
  s.count '@'.toNat = 1 ∧ localPart s ≠ [] ∧ domainPart s ≠ [] ∧ '.'.toNat ∈ domainPart s ∧
  ∀ c ∈ s, isWhiteSpace c = false

/-- The shape `local@domain.tld`: exactly one `@`, at least one character before it, after
it a `.` with at least one character on each side, and no white space. -/
def EmailShape (s : JSString) : Prop :=
  s.count '@'.toNat = 1 ∧ localPart s ≠ [] ∧
  (∃ d t, domainPart s = d ++ '.'.toNat :: t ∧ d ≠ [] ∧ t ≠ []) ∧
  ∀ c ∈ s, isWhiteSpace c = false

/-- A non-empty run of code units that are neither white space nor `@`: what `[^\s@]+`
matches. -/
def Word (s : JSString) : Prop := s ≠ [] ∧ ∀ c ∈ s, notSpaceAt c = true

/-- The failure carries a response whose status is 409. -/
def IsConflict (err : Err) : Prop :=
  match err.response with
  | some r => r.status = some 409
  | none => False

instance (err : Err) : Decidable (IsConflict err) := by
  unfold IsConflict
  split <;> infer_instance

/-- The non-empty message the server sent with the failure, when there is one: the
`message` of the `data` of the response. -/
def serverSaid : Err → Option JSString
  | ⟨some ⟨_, some ⟨some (c :: m)⟩⟩, _⟩ => some (c :: m)
  | _ => none

/-- The message of the error itself contains `Network`. -/
def MentionsNetwork (err : Err) : Prop :=
  match err.message with
  | some m => utf16 "Network" <:+: m
  | none => False

instance (err : Err) : Decidable (MentionsNetwork err) := by
  unfold MentionsNetwork
  split <;> infer_instance

/-! ## Sample forms -/

/-- The state of an idle component whose five fields hold the given values, after the
validation effect has run. -/
def rendered (first last email password confirm : JSString) : State :=
  validationEffect
    { first := first, last := last, email := email, password := password, confirm := confirm
      loading := false, disabled := false
      emailError := utf16 "", serverEmailError := utf16 "", matchError := utf16 ""
      strength := 0 }

/-- The form with all five fields empty. -/
def emptyForm : State := rendered (utf16 "") (utf16 "") (utf16 "") (utf16 "") (utf16 "")

/-- A form whose first name is a single space and whose other fields are acceptable. -/
def blankNameForm : State :=
  rendered (utf16 " ") (utf16 "Doe") (utf16 "a@b.com") (utf16 "abcdef") (utf16 "abcdef")

/-- A filled form whose password `abc12` has five characters. -/
def shortPasswordForm : State :=
  rendered (utf16 "Jane") (utf16 "Doe") (utf16 "jane@x.com") (utf16 "abc12") (utf16 "abc12")

/-- A filled form whose e-mail has no `@`, so that the e-mail error is set. -/
def badEmailForm : State :=
  rendered (utf16 "Jane") (utf16 "Doe") (utf16 "jane.x.com") (utf16 "abcdef") (utf16 "abcdef")

/-- A form that passes the three gates, with spaces around the first name and capitals in
the e-mail. -/
def janeForm : State :=
  rendered (utf16 " Jane ") (utf16 "Doe") (utf16 "Jane@X.com") (utf16 "abcdef") (utf16 "abcdef")

/-- The form `janeForm` showing a server error on the e-mail field. -/
def conflictForm : State :=
  { janeForm with serverEmailError := utf16 "Email already registered" }

/-- A rejection with status 409 and no message from the server. -/
def conflictErr : Err :=
  { response := some { status := some 409, data := none }, message := none }

/-- A thrown error with no response, whose message is `Network Error`. -/
def networkErr : Err :=
  { response := none, message := some (utf16 "Network Error") }

/-- A rejection with status 409 and the server's message `Email taken`. -/
def conflictSaidErr : Err :=
  { response := some { status := some 409, data := some { message := some (utf16 "Email taken") } }
    message := some (utf16 "Request failed with status code 409") }

/-- A rejection with status 500 and the server's message `Server down`; the error's own
message mentions `Network`. -/
def serverSaidErr : Err :=
  { response := some { status := some 500, data := some { message := some (utf16 "Server down") } }
    message := some (utf16 "Network Error") }

/-- A rejection with status 500 and an empty server message. -/
def silentErr : Err :=
  { response := some { status := some 500, data := some { message := some (utf16 "") } }
    message := some (utf16 "Request failed with status code 500") }

/-! ## The matcher against the language of an expression -/

namespace RE

theorem fullMatch_empty (s : JSString) : fullMatch .empty s = false := by
  induction s with
  | nil => rfl
  | cons c s ih => simpa [fullMatch, deriv] using ih

theorem fullMatch_eps (s : JSString) : fullMatch .eps s = true ↔ s = [] := by
  cases s with
  | nil => simp [fullMatch, nullable]
  | cons c s => simp [fullMatch, deriv, fullMatch_empty]

theorem fullMatch_cls (p : Nat → Bool) (s : JSString) :
    fullMatch (.cls p) s = true ↔ ∃ c, s = [c] ∧ p c = true := by
  cases s with
  | nil => simp [fullMatch, nullable]
  | cons c s =>
    by_cases h : p c = true
    · simp only [fullMatch, deriv, h, if_true, fullMatch_eps]
      constructor
      · rintro rfl
        exact ⟨c, rfl, h⟩
      · rintro ⟨d, hd, _⟩
        simp only [List.cons.injEq] at hd
        exact hd.2
    · simp only [fullMatch, deriv, h, Bool.false_eq_true, if_false, fullMatch_empty]
      constructor
      · intro hf
        cases hf
      · rintro ⟨d, hd, hpd⟩
        simp only [List.cons.injEq] at hd
        rw [← hd.1] at hpd
        exact absurd hpd h

theorem fullMatch_alt (r t : RE) (s : JSString) :
    fullMatch (.alt r t) s = (fullMatch r s || fullMatch t s) := by
  induction s generalizing r t with
  | nil => rfl
  | cons c s ih => simp [fullMatch, deriv, ih]

theorem fullMatch_seq (r t : RE) (s : JSString) :
    fullMatch (.seq r t) s = true ↔
      ∃ u v, s = u ++ v ∧ fullMatch r u = true ∧ fullMatch t v = true := by
  induction s generalizing r t with
  | nil =>
    constructor
    · intro h
      simp only [fullMatch, nullable, Bool.and_eq_true] at h
      exact ⟨[], [], rfl, h.1, h.2⟩
    · rintro ⟨u, v, huv, hu, hv⟩
      obtain ⟨rfl, rfl⟩ := List.append_eq_nil.1 huv.symm
      simp only [fullMatch] at hu hv
      simp [fullMatch, nullable, hu, hv]
  | cons c s ih =>
    have key : (∃ u v, s = u ++ v ∧ fullMatch (deriv r c) u = true ∧ fullMatch t v = true) ↔
        ∃ u v, c :: s = u ++ v ∧ u ≠ [] ∧ fullMatch r u = true ∧ fullMatch t v = true := by
      constructor
      · rintro ⟨u, v, rfl, hu, hv⟩
        exact ⟨c :: u, v, rfl, by simp, hu, hv⟩
      · rintro ⟨u, v, huv, hne, hu, hv⟩
        cases u with
        | nil => exact absurd rfl hne
        | cons d u =>
          simp only [List.cons_append, List.cons.injEq] at huv
          obtain ⟨rfl, rfl⟩ := huv
          exact ⟨u, v, rfl, hu, hv⟩
    by_cases hn : nullable r = true
    · simp only [fullMatch, deriv, hn, if_true, fullMatch_alt, Bool.or_eq_true, ih, key]
      constructor
      · rintro (⟨u, v, huv, _, hu, hv⟩ | h)
        · exact ⟨u, v, huv, hu, hv⟩
        · exact ⟨[], c :: s, rfl, hn, h⟩
      · rintro ⟨u, v, huv, hu, hv⟩
        cases u with
        | nil =>
          right
          simp only [List.nil_append] at huv
          subst huv
          exact hv
        | cons d u => exact Or.inl ⟨d :: u, v, huv, by simp, hu, hv⟩
    · simp only [fullMatch, deriv, hn, Bool.false_eq_true, if_false, ih, key]
      constructor
      · rintro ⟨u, v, huv, _, hu, hv⟩
        exact ⟨u, v, huv, hu, hv⟩
      · rintro ⟨u, v, huv, hu, hv⟩
        cases u with
        | nil => exact absurd hu hn
        | cons d u => exact ⟨d :: u, v, huv, by simp, hu, hv⟩

theorem fullMatch_star_cls (p : Nat → Bool) (s : JSString) :
    fullMatch (.star (.cls p)) s = true ↔ ∀ c ∈ s, p c = true := by
  induction s with
  | nil => simp [fullMatch, nullable]
  | cons c s ih =>
    have h : fullMatch (.star (.cls p)) (c :: s)
        = fullMatch (.seq (if p c then .eps else .empty) (.star (.cls p))) s := rfl
    rw [h, fullMatch_seq]
    by_cases hp : p c = true
    · simp only [hp, if_true, fullMatch_eps, List.mem_cons, forall_eq_or_imp, true_and, ← ih]
      constructor
      · rintro ⟨u, v, rfl, rfl, hv⟩
        simpa using hv
      · intro hs
        exact ⟨[], s, rfl, rfl, hs⟩
    · simp [hp, fullMatch_empty]

theorem fullMatch_plus_cls (p : Nat → Bool) (s : JSString) :
    fullMatch (plus (.cls p)) s = true ↔ s ≠ [] ∧ ∀ c ∈ s, p c = true := by
  unfold plus
  rw [fullMatch_seq]
  constructor
  · rintro ⟨u, v, rfl, hu, hv⟩
    obtain ⟨c, rfl, hc⟩ := (fullMatch_cls p u).1 hu
    rw [fullMatch_star_cls] at hv
    refine ⟨by simp, ?_⟩
    intro d hd
    simp only [List.singleton_append, List.mem_cons] at hd
    rcases hd with rfl | hd
    · exact hc
    · exact hv d hd
  · rintro ⟨hne, hall⟩
    cases s with
    | nil => exact absurd rfl hne
    | cons c s =>
      refine ⟨[c], s, rfl, (fullMatch_cls p [c]).2 ⟨c, rfl, hall c (by simp)⟩, ?_⟩
      rw [fullMatch_star_cls]
      intro d hd
      exact hall d (by simp [hd])

theorem fullMatch_chr (c : Char) (s : JSString) :
    fullMatch (.chr c) s = true ↔ s = [c.toNat] := by
  unfold chr
  rw [fullMatch_cls]
  constructor
  · rintro ⟨d, rfl, hd⟩
    simp only [beq_iff_eq] at hd
    rw [hd]
  · rintro rfl
    exact ⟨c.toNat, rfl, by simp⟩

theorem fullMatch_star_anyUnit (s : JSString) : fullMatch (.star anyUnit) s = true := by
  unfold anyUnit
  rw [fullMatch_star_cls]
  intros
  rfl

theorem search_cls (p : Nat → Bool) (s : JSString) :
    search (.cls p) s = true ↔ ∃ c ∈ s, p c = true := by
  unfold search
  rw [fullMatch_seq]
  constructor
  · rintro ⟨u, v, rfl, _, hv⟩
    rw [fullMatch_seq] at hv
    obtain ⟨w, x, rfl, hw, _⟩ := hv
    obtain ⟨c, rfl, hc⟩ := (fullMatch_cls p w).1 hw
    exact ⟨c, by simp, hc⟩
  · rintro ⟨c, hmem, hc⟩
    obtain ⟨u, v, rfl⟩ := List.append_of_mem hmem
    refine ⟨u, c :: v, rfl, fullMatch_star_anyUnit u, ?_⟩
    rw [fullMatch_seq]
    exact ⟨[c], v, rfl, (fullMatch_cls p [c]).2 ⟨c, rfl, hc⟩, fullMatch_star_anyUnit v⟩

end RE

/-! ## Password strength -/

theorem search_isLower (pwd : JSString) : RE.search (.cls isLower) pwd = true ↔ HasLower pwd := by
  rw [RE.search_cls]
  simp [HasLower, isLower]

theorem search_isUpper (pwd : JSString) : RE.search (.cls isUpper) pwd = true ↔ HasUpper pwd := by
  rw [RE.search_cls]
  simp [HasUpper, isUpper]

theorem search_isDigit (pwd : JSString) : RE.search (.cls isDigit) pwd = true ↔ HasDigit pwd := by
  rw [RE.search_cls]
  simp [HasDigit, isDigit]

theorem search_isSymbol (pwd : JSString) :
    RE.search (.cls isSymbol) pwd = true ↔ HasSymbol pwd := by
  rw [RE.search_cls]
  simp [HasSymbol, isSymbol, symbolSet]

theorem classes_eq_classesPresent (pwd : JSString) : classes pwd = classesPresent pwd := by
  unfold classes classesPresent
  simp only [search_isLower, search_isUpper, search_isDigit, search_isSymbol]

theorem calcStrength_eq (pwd : JSString) :
    calcStrength pwd = if pwd.length < 6 then 0 else 25 * (classesPresent pwd : ℚ) := by
  unfold calcStrength
  rw [classes_eq_classesPresent]
  by_cases h : pwd.length < 6
  · simp [h]
  · have hne : truthy pwd = true := by
      cases pwd with
      | nil => simp at h
      | cons c t => rfl
    simp only [hne, h, Bool.not_true, Bool.false_or, decide_False, Bool.false_eq_true, if_false]
    ring

/-- C9: `calcStrength` is 0 for a password shorter than 6 code units (the empty one included)
and otherwise 25 times the number of classes present among lowercase, uppercase, digit and
symbol; so it is one of 0, 25, 50, 75, 100, and it is 100 exactly when the length is at least
6 and all four classes are present. On the four sample passwords it gives 0, 0, 25, 100. -/
theorem calcStrength_spec (pwd : JSString) :
    calcStrength pwd = (if pwd.length < 6 then 0 else 25 * (classesPresent pwd : ℚ)) ∧
    (calcStrength pwd = 0 ∨ calcStrength pwd = 25 ∨ calcStrength pwd = 50 ∨
      calcStrength pwd = 75 ∨ calcStrength pwd = 100) ∧
    (calcStrength pwd = 100 ↔
      6 ≤ pwd.length ∧ HasLower pwd ∧ HasUpper pwd ∧ HasDigit pwd ∧ HasSymbol pwd) ∧
    calcStrength (utf16 "") = 0 ∧ calcStrength (utf16 "abcde") = 0 ∧
    calcStrength (utf16 "abcdef") = 25 ∧ calcStrength (utf16 "Abcdef1!") = 100 := by
  refine ⟨calcStrength_eq pwd, ?_, ?_, ?_, ?_, ?_, ?_⟩
  · rw [calcStrength_eq]
    unfold classesPresent
    by_cases h : pwd.length < 6
    · simp [h]
    · by_cases h1 : HasLower pwd <;> by_cases h2 : HasUpper pwd <;>
        by_cases h3 : HasDigit pwd <;> by_cases h4 : HasSymbol pwd <;>
        simp [h, h1, h2, h3, h4] <;> norm_num
  · rw [calcStrength_eq]
    unfold classesPresent
    by_cases h : pwd.length < 6
    · have h6 : ¬ 6 ≤ pwd.length := by omega
      simp [h, h6]
    · have h6 : 6 ≤ pwd.length := by omega
      by_cases h1 : HasLower pwd <;> by_cases h2 : HasUpper pwd <;>
        by_cases h3 : HasDigit pwd <;> by_cases h4 : HasSymbol pwd <;>
        simp [h, h6, h1, h2, h3, h4] <;> norm_num
  · rw [calcStrength_eq]
    simp [utf16]
  · rw [calcStrength_eq]
    have h : (utf16 "abcde").length < 6 := by decide
    simp [h]
  · rw [calcStrength_eq]
    have h : ¬ (utf16 "abcdef").length < 6 := by decide
    have hc : classesPresent (utf16 "abcdef") = 1 := by decide
    simp [h, hc]
  · rw [calcStrength_eq]
    have h : ¬ (utf16 "Abcdef1!").length < 6 := by decide
    have hc : classesPresent (utf16 "Abcdef1!") = 4 := by decide
    rw [if_neg h, hc]
    norm_num

/-! ## E-mail format -/

theorem emailPattern_fullMatch (s : JSString) :
    emailPattern.fullMatch s = true ↔
      ∃ l d t, s = l ++ '@'.toNat :: (d ++ '.'.toNat :: t) ∧ Word l ∧ Word d ∧ Word t := by
  unfold emailPattern Word
  simp only [RE.fullMatch_seq, RE.fullMatch_plus_cls, RE.fullMatch_chr]
  constructor
  · rintro ⟨l, _, rfl, hl, _, _, rfl, rfl, d, _, rfl, hd, _, t, rfl, rfl, ht⟩
    exact ⟨l, d, t, by simp, hl, hd, ht⟩
  · rintro ⟨l, d, t, rfl, hl, hd, ht⟩
    exact ⟨l, _, rfl, hl, _, _, rfl, rfl, d, _, rfl, hd, _, t, rfl, rfl, ht⟩

theorem localPart_append (l r : JSString) (h : ∀ c ∈ l, c ≠ '@'.toNat) :
    localPart (l ++ '@'.toNat :: r) = l := by
  induction l with
  | nil => simp [localPart]
  | cons c l ih =>
    have hc : c ≠ 64 := h c (by simp)
    have hl : ∀ c ∈ l, c ≠ '@'.toNat := fun d hd => h d (by simp [hd])
    have := ih hl
    unfold localPart at this ⊢
    simp only [Char.reduceToNat] at this
    simp [List.takeWhile_cons, hc, this]

theorem domainPart_append (l r : JSString) (h : ∀ c ∈ l, c ≠ '@'.toNat) :
    domainPart (l ++ '@'.toNat :: r) = r := by
  induction l with
  | nil => simp [domainPart]
  | cons c l ih =>
    have hc : c ≠ 64 := h c (by simp)
    have hl : ∀ c ∈ l, c ≠ '@'.toNat := fun d hd => h d (by simp [hd])
    have := ih hl
    unfold domainPart at this ⊢
    simp only [Char.reduceToNat, List.drop_one] at this
    simp [List.dropWhile_cons, hc, this]

theorem localPart_ne_at (s : JSString) : ∀ c ∈ localPart s, c ≠ '@'.toNat := by
  intro c hc
  unfold localPart at hc
  simpa using List.mem_takeWhile_imp hc

theorem eq_localPart_append_domainPart (s : JSString) (h : '@'.toNat ∈ s) :
    s = localPart s ++ '@'.toNat :: domainPart s := by
  induction s with
  | nil => simp at h
  | cons c s ih =>
    by_cases hc : c = '@'.toNat
    · subst hc
      simp [localPart, domainPart]
    · have hs : '@'.toNat ∈ s := by
        rcases List.mem_cons.1 h with h1 | h1
        · exact absurd h1.symm hc
        · exact h1
      have := ih hs
      unfold localPart domainPart at this ⊢
      simp only [List.takeWhile_cons, List.dropWhile_cons, bne_iff_ne, ne_eq, hc,
        not_false_eq_true, decide_True, if_true, List.cons_append, List.cons.injEq, true_and]
      exact this

theorem Word.ne_at {s : JSString} (h : Word s) : ∀ c ∈ s, c ≠ '@'.toNat := by
  intro c hc
  have := h.2 c hc
  simp only [notSpaceAt, Bool.not_eq_true', Bool.or_eq_false_iff, beq_eq_false_iff_ne] at this
  exact this.2

theorem Word.not_space {s : JSString} (h : Word s) : ∀ c ∈ s, isWhiteSpace c = false := by
  intro c hc
  have := h.2 c hc
  simp only [notSpaceAt, Bool.not_eq_true', Bool.or_eq_false_iff] at this
  exact this.1

theorem word_of (s : JSString) (hne : s ≠ []) (hat : ∀ c ∈ s, c ≠ '@'.toNat)
    (hws : ∀ c ∈ s, isWhiteSpace c = false) : Word s := by
  refine ⟨hne, fun c hc => ?_⟩
  have h64 : c ≠ 64 := hat c hc
  simp [notSpaceAt, hws c hc, h64]

theorem emailPattern_fullMatch_iff_shape (s : JSString) :
    emailPattern.fullMatch s = true ↔ EmailShape s := by
  rw [emailPattern_fullMatch]
  constructor
  · rintro ⟨l, d, t, rfl, hl, hd, ht⟩
    have hdt : ∀ c ∈ d ++ '.'.toNat :: t, c ≠ '@'.toNat := by
      intro c hc
      rcases List.mem_append.1 hc with h | h
      · exact hd.ne_at c h
      · rcases List.mem_cons.1 h with h | h
        · rw [h]; decide
        · exact ht.ne_at c h
    refine ⟨?_, ?_, ?_, ?_⟩
    · have h1 : List.count '@'.toNat l = 0 :=
        List.count_eq_zero.2 (fun h => hl.ne_at _ h rfl)
      have h2 : List.count '@'.toNat (d ++ '.'.toNat :: t) = 0 :=
        List.count_eq_zero.2 (fun h => hdt _ h rfl)
      rw [List.count_append, List.count_cons_self, h1, h2]
    · rw [localPart_append l _ hl.ne_at]
      exact hl.1
    · rw [domainPart_append l _ hl.ne_at]
      exact ⟨d, t, rfl, hd.1, ht.1⟩
    · intro c hc
      rcases List.mem_append.1 hc with h | h
      · exact hl.not_space c h
      · rcases List.mem_cons.1 h with h | h
        · rw [h]; decide
        · rcases List.mem_append.1 h with h | h
          · exact hd.not_space c h
          · rcases List.mem_cons.1 h with h | h
            · rw [h]; decide
            · exact ht.not_space c h
  · rintro ⟨hcount, hloc, ⟨d, t, hdom, hd, ht⟩, hws⟩
    have hmem : '@'.toNat ∈ s := List.count_pos_iff.1 (by omega)
    have hs := eq_localPart_append_domainPart s hmem
    have h1 : List.count '@'.toNat (localPart s) = 0 :=
      List.count_eq_zero.2 (fun h => localPart_ne_at s _ h rfl)
    have h2 : List.count '@'.toNat (domainPart s) = 0 := by
      have h := hcount
      rw [hs, List.count_append, List.count_cons_self, h1] at h
      omega
    have hdomat : ∀ c ∈ domainPart s, c ≠ '@'.toNat := by
      intro c hc hcat
      rw [hcat] at hc
      exact List.count_eq_zero.1 h2 hc
    have hsub : ∀ c ∈ domainPart s, c ∈ s := by
      intro c hc
      rw [hs]
      simp [hc]
    have hsubl : ∀ c ∈ localPart s, c ∈ s := by
      intro c hc
      rw [hs]
      simp [hc]
    refine ⟨localPart s, d, t, ?_, ?_, ?_, ?_⟩
    · rw [← hdom]
      exact hs
    · exact word_of _ hloc (localPart_ne_at s) (fun c hc => hws c (hsubl c hc))
    · refine word_of _ hd (fun c hc => hdomat c ?_) (fun c hc => hws c (hsub c ?_)) <;>
        · rw [hdom]
          simp [hc]
    · refine word_of _ ht (fun c hc => hdomat c ?_) (fun c hc => hws c (hsub c ?_)) <;>
        · rw [hdom]
          simp [hc]

theorem validateEmailFormat_eq_nil (email : JSString) :
    validateEmailFormat email = utf16 "" ↔ email = [] ∨ emailPattern.fullMatch email = true := by
  unfold validateEmailFormat
  cases email with
  | nil => simp [truthy]
  | cons c t =>
    cases h : emailPattern.fullMatch (c :: t)
    · simp only [truthy, List.isEmpty_cons, Bool.not_false, Bool.and_self, if_true,
        Bool.false_eq_true, or_false, reduceCtorEq, iff_false]
      decide
    · simp [truthy]

/-- C8, as stated, fails: `a@.com` has exactly one `@`, a character before it and characters
after it, a `.` after the `@` and no white space, and the error is returned for it. -/
theorem validateEmailFormat_claimed_shape_rejected :
    ClaimedEmailShape (utf16 "a@.com") ∧ utf16 "a@.com" ≠ [] ∧
    validateEmailFormat (utf16 "a@.com") = utf16 "Please enter a valid email address" := by
  refine ⟨?_, by decide, by decide⟩
  unfold ClaimedEmailShape
  decide

/-- C8, amended: `validateEmailFormat` returns no error if and only if the e-mail is empty or
has exactly one `@`, at least one character before it, after it a `.` with at least one
character on each side of it, and no white space; otherwise it returns the error
"Please enter a valid email address". A non-empty string with no `@`, or with no `.` after
the `@`, yields the error, and `a@b.com` yields none. -/
theorem validateEmailFormat_spec (email : JSString) :
    (validateEmailFormat email = utf16 "" ↔ email = [] ∨ EmailShape email) ∧
    (validateEmailFormat email = utf16 "" ∨
      validateEmailFormat email = utf16 "Please enter a valid email address") ∧
    (email ≠ [] ∧ ('@'.toNat ∉ email ∨ '.'.toNat ∉ domainPart email) →
      validateEmailFormat email = utf16 "Please enter a valid email address") ∧
    validateEmailFormat (utf16 "a@b.com") = utf16 "" := by
  have hiff : validateEmailFormat email = utf16 "" ↔ email = [] ∨ EmailShape email := by
    rw [validateEmailFormat_eq_nil, emailPattern_fullMatch_iff_shape]
  have hor : validateEmailFormat email = utf16 "" ∨
      validateEmailFormat email = utf16 "Please enter a valid email address" := by
    unfold validateEmailFormat
    split
    · exact Or.inr rfl
    · exact Or.inl rfl
  refine ⟨hiff, hor, ?_, by decide⟩
  rintro ⟨hne, hno⟩
  rcases hor with h | h
  · exfalso
    rcases hiff.1 h with h0 | ⟨hcount, _, ⟨d, t, hdom, _, _⟩, _⟩
    · exact hne h0
    · rcases hno with hno | hno
      · exact hno (List.count_pos_iff.1 (by omega))
      · apply hno
        rw [hdom]
        simp
  · exact h

/-- C8, amended, at `ab.com`: a non-empty string with no `@` yields the error. -/
theorem validateEmailFormat_spec_witness :
    (utf16 "ab.com" ≠ [] ∧
      ('@'.toNat ∉ utf16 "ab.com" ∨ '.'.toNat ∉ domainPart (utf16 "ab.com"))) ∧
    validateEmailFormat (utf16 "ab.com") = utf16 "Please enter a valid email address" :=
  ⟨⟨by decide, Or.inl (by decide)⟩,
    (validateEmailFormat_spec (utf16 "ab.com")).2.2.1 ⟨by decide, Or.inl (by decide)⟩⟩

/-! ## The gates of `isFormValid` -/

theorem truthy_eq_false_iff (s : JSString) : truthy s = false ↔ s = [] := by
  cases s <;> simp [truthy]

theorem truthy_eq_true_iff (s : JSString) : truthy s = true ↔ s ≠ [] := by
  cases s <;> simp [truthy]

theorem isFormValid_of_empty {D : Type} (s : State)
    (h : s.first = [] ∨ s.last = [] ∨ s.email = [] ∨ s.password = [] ∨ s.confirm = []) :
    (isFormValid s : Bool × List (Effect D)) =
      (false, [.openSnackbar (utf16 "Please fill in all fields") .error]) := by
  unfold isFormValid
  rw [if_pos]
  simp only [Bool.or_eq_true, Bool.not_eq_true', truthy_eq_false_iff]
  tauto

theorem allFilled_cond {s : State} (h : AllFilled s) :
    (!truthy s.first || !truthy s.last || !truthy s.email || !truthy s.password ||
      !truthy s.confirm) = false := by
  obtain ⟨h1, h2, h3, h4, h5⟩ := h
  simp [(truthy_eq_true_iff _).2 h1, (truthy_eq_true_iff _).2 h2, (truthy_eq_true_iff _).2 h3,
    (truthy_eq_true_iff _).2 h4, (truthy_eq_true_iff _).2 h5]

theorem isFormValid_of_short {D : Type} (s : State) (h : AllFilled s)
    (hl : s.password.length < 6) :
    (isFormValid s : Bool × List (Effect D)) =
      (false, [.openSnackbar (utf16 "Password must be at least 6 characters") .error]) := by
  unfold isFormValid
  rw [allFilled_cond h]
  simp [hl]

theorem isFormValid_of_inline {D : Type} (s : State) (h : AllFilled s)
    (hl : 6 ≤ s.password.length) (he : s.emailError ≠ [] ∨ s.matchError ≠ []) :
    (isFormValid s : Bool × List (Effect D)) = (false, []) := by
  unfold isFormValid
  rw [allFilled_cond h, if_neg (by simp), if_neg (by omega), if_pos]
  simp only [Bool.or_eq_true, truthy_eq_true_iff]
  exact he

theorem isFormValid_of_passes {D : Type} (s : State) (h : PassesGates s) :
    (isFormValid s : Bool × List (Effect D)) = (true, []) := by
  obtain ⟨hf, hl, he, hm⟩ := h
  unfold isFormValid
  rw [allFilled_cond hf, if_neg (by simp), if_neg (by omega), if_neg]
  simp [he, hm, truthy]

theorem handleSignUp_of_passes {D : Type} (f : JSString → JSString) (s : State) (o : Outcome D)
    (h : PassesGates s) :
    handleSignUp f s o =
      { awaiting := some { s with loading := true, disabled := true }
        final := finallyBlock
          (match (tryBlock f s o).1 with
            | some err => (catchBlock { s with loading := true, disabled := true } err :
                State × List (Effect D))
            | none => ({ s with loading := true, disabled := true }, [])).1
        effects := (tryBlock f s o).2 ++
          (match (tryBlock f s o).1 with
            | some err => (catchBlock { s with loading := true, disabled := true } err :
                State × List (Effect D))
            | none => ({ s with loading := true, disabled := true }, [])).2 } := by
  unfold handleSignUp
  simp [isFormValid_of_passes s h]

theorem handleSignUp_of_rejected_locally {D : Type} (f : JSString → JSString) (s : State)
    (o : Outcome D) (es : List (Effect D))
    (h : (isFormValid s : Bool × List (Effect D)) = (false, es)) :
    handleSignUp f s o = { awaiting := none, final := s, effects := es } := by
  unfold handleSignUp
  simp [h]

/-! ## Local rejection -/

/-- C1, as stated, fails: a form whose first name is one space and whose other fields are
acceptable passes the required-fields gate; no "Please fill in all fields" notification is
emitted and the remote call is issued. -/
theorem blank_field_not_rejected :
    Blank blankNameForm.first ∧
    notifications (handleSignUp asciiLower blankNameForm (Outcome.fulfilled (0 : Nat))).effects
      = [(utf16 "Sign-up successful!", Severity.success)] ∧
    remoteCalls (handleSignUp asciiLower blankNameForm (Outcome.fulfilled (0 : Nat))).effects
      = [{ name := utf16 " Doe", email := utf16 "a@b.com", password := utf16 "abcdef" }] := by
  refine ⟨?_, by decide, by decide⟩
  unfold Blank
  decide

/-- C1, amended: when at least one of the five fields is the empty string, whatever the
validation state and the outcome, `handleSignUp` emits exactly one notification, the error
"Please fill in all fields", issues no remote call, does not enter the awaiting state and
leaves the state, the submission flags included, unchanged. -/
theorem required_fields_gate {D : Type} (f : JSString → JSString) (s : State) (o : Outcome D)
    (h : s.first = [] ∨ s.last = [] ∨ s.email = [] ∨ s.password = [] ∨ s.confirm = []) :
    (handleSignUp f s o).effects = [.openSnackbar (utf16 "Please fill in all fields") .error] ∧
    notifications (handleSignUp f s o).effects
      = [(utf16 "Please fill in all fields", Severity.error)] ∧
    remoteCalls (handleSignUp f s o).effects = [] ∧
    (handleSignUp f s o).awaiting = none ∧
    (handleSignUp f s o).final = s := by
  rw [handleSignUp_of_rejected_locally f s o _ (isFormValid_of_empty s h)]
  exact ⟨rfl, rfl, rfl, rfl, rfl⟩

/-- C1, amended, at the form with all fields empty. -/
theorem required_fields_gate_witness :
    (emptyForm.first = [] ∨ emptyForm.last = [] ∨ emptyForm.email = [] ∨
      emptyForm.password = [] ∨ emptyForm.confirm = []) ∧
    notifications (handleSignUp asciiLower emptyForm (Outcome.fulfilled (0 : Nat))).effects
      = [(utf16 "Please fill in all fields", Severity.error)] ∧
    remoteCalls (handleSignUp asciiLower emptyForm (Outcome.fulfilled (0 : Nat))).effects = [] :=
  ⟨Or.inl rfl,
    (required_fields_gate asciiLower emptyForm (Outcome.fulfilled (0 : Nat)) (Or.inl rfl)).2.1,
    (required_fields_gate asciiLower emptyForm (Outcome.fulfilled (0 : Nat)) (Or.inl rfl)).2.2.1⟩

/-- C2: when the five fields are non-empty and the password is shorter than 6, whatever the
e-mail error, the mismatch error and the strength score held by the state, `handleSignUp`
emits exactly one notification, the error "Password must be at least 6 characters", issues
no remote call and leaves the state unchanged. -/
theorem password_length_gate {D : Type} (f : JSString → JSString) (s : State) (o : Outcome D)
    (h : AllFilled s) (hl : s.password.length < 6) :
    (handleSignUp f s o).effects
      = [.openSnackbar (utf16 "Password must be at least 6 characters") .error] ∧
    notifications (handleSignUp f s o).effects
      = [(utf16 "Password must be at least 6 characters", Severity.error)] ∧
    remoteCalls (handleSignUp f s o).effects = [] ∧
    (handleSignUp f s o).awaiting = none ∧
    (handleSignUp f s o).final = s := by
  rw [handleSignUp_of_rejected_locally f s o _ (isFormValid_of_short s h hl)]
  exact ⟨rfl, rfl, rfl, rfl, rfl⟩

/-- C2 at the form with password `abc12` and all other fields filled. -/
theorem password_length_gate_witness :
    (AllFilled shortPasswordForm ∧ shortPasswordForm.password.length < 6) ∧
    notifications (handleSignUp asciiLower shortPasswordForm (Outcome.fulfilled (0 : Nat))).effects
      = [(utf16 "Password must be at least 6 characters", Severity.error)] ∧
    remoteCalls (handleSignUp asciiLower shortPasswordForm (Outcome.fulfilled (0 : Nat))).effects
      = [] :=
  have hf : AllFilled shortPasswordForm := by unfold AllFilled; decide
  have hl : shortPasswordForm.password.length < 6 := by decide
  ⟨⟨hf, hl⟩,
    (password_length_gate asciiLower shortPasswordForm (Outcome.fulfilled (0 : Nat)) hf hl).2.1,
    (password_length_gate asciiLower shortPasswordForm (Outcome.fulfilled (0 : Nat)) hf hl).2.2.1⟩

/-! ## The remote call and its outcomes -/

theorem startsWith_iff (s p : JSString) : startsWith s p = true ↔ p <+: s := by
  induction p generalizing s with
  | nil => simp [startsWith]
  | cons d p ih =>
    cases s with
    | nil => simp [startsWith]
    | cons c s =>
      simp only [startsWith, Bool.and_eq_true, beq_iff_eq, ih, List.cons_prefix_cons]
      constructor
      · rintro ⟨rfl, h⟩
        exact ⟨rfl, h⟩
      · rintro ⟨rfl, h⟩
        exact ⟨rfl, h⟩

theorem includes_iff (s p : JSString) : includes s p = true ↔ p <:+: s := by
  induction s with
  | nil =>
    simp only [includes, startsWith_iff, List.prefix_nil, List.infix_nil]
  | cons c s ih =>
    simp only [includes, Bool.or_eq_true, startsWith_iff, ih, List.infix_cons_iff]

theorem remoteCalls_of_passes {D : Type} (f : JSString → JSString) (s : State) (o : Outcome D)
    (h : PassesGates s) :
    remoteCalls (handleSignUp f s o).effects = [payload f s] := by
  rw [handleSignUp_of_passes f s o h]
  cases o with
  | fulfilled d => rfl
  | rejected err =>
    simp only [tryBlock, catchBlock]
    split <;> rfl
  | faulted d st err =>
    cases st <;> simp only [tryBlock, catchBlock] <;> split <;> rfl

/-- C3: for a form with the five fields non-empty and a password of length at least 6, if
the e-mail error or the mismatch error is non-empty then `handleSignUp` emits nothing (no
notification, no remote call) and leaves the state unchanged; if both are empty the remote
call is issued exactly once, whatever the server e-mail error. -/
theorem derived_error_gate {D : Type} (f : JSString → JSString) (s : State) (o : Outcome D)
    (h : AllFilled s) (hl : 6 ≤ s.password.length) :
    (s.emailError ≠ [] ∨ s.matchError ≠ [] →
      (handleSignUp f s o).effects = [] ∧ (handleSignUp f s o).awaiting = none ∧
      (handleSignUp f s o).final = s) ∧
    (s.emailError = [] ∧ s.matchError = [] →
      (remoteCalls (handleSignUp f s o).effects).length = 1) := by
  constructor
  · intro he
    rw [handleSignUp_of_rejected_locally f s o _ (isFormValid_of_inline s h hl he)]
    exact ⟨rfl, rfl, rfl⟩
  · rintro ⟨he, hm⟩
    rw [remoteCalls_of_passes f s o ⟨h, hl, he, hm⟩]
    rfl

/-- C3 at a form whose e-mail error is set, and at a form that shows a server e-mail error
only. -/
theorem derived_error_gate_witness :
    (AllFilled badEmailForm ∧ 6 ≤ badEmailForm.password.length ∧
      (badEmailForm.emailError ≠ [] ∨ badEmailForm.matchError ≠ [])) ∧
    ((handleSignUp asciiLower badEmailForm (Outcome.fulfilled (0 : Nat))).effects = [] ∧
      (handleSignUp asciiLower badEmailForm (Outcome.fulfilled (0 : Nat))).awaiting = none ∧
      (handleSignUp asciiLower badEmailForm (Outcome.fulfilled (0 : Nat))).final
        = badEmailForm) ∧
    (AllFilled conflictForm ∧ 6 ≤ conflictForm.password.length ∧
      conflictForm.serverEmailError ≠ [] ∧
      conflictForm.emailError = [] ∧ conflictForm.matchError = []) ∧
    (remoteCalls (handleSignUp asciiLower conflictForm (Outcome.fulfilled (0 : Nat))).effects).length
      = 1 :=
  have h1 : AllFilled badEmailForm := by unfold AllFilled; decide
  have h2 : 6 ≤ badEmailForm.password.length := by decide
  have h3 : badEmailForm.emailError ≠ [] ∨ badEmailForm.matchError ≠ [] := Or.inl (by decide)
  have k1 : AllFilled conflictForm := by unfold AllFilled; decide
  have k2 : 6 ≤ conflictForm.password.length := by decide
  have k3 : conflictForm.emailError = [] ∧ conflictForm.matchError = [] := by decide
  ⟨⟨h1, h2, h3⟩,
    (derived_error_gate asciiLower badEmailForm (Outcome.fulfilled (0 : Nat)) h1 h2).1 h3,
    ⟨k1, k2, by decide, k3⟩,
    (derived_error_gate asciiLower conflictForm (Outcome.fulfilled (0 : Nat)) k1 k2).2 k3⟩

/-- C4: for a form that passes the three gates, the one remote request carries the trimmed
first name, one space and the trimmed last name as `name`, the trimmed e-mail in lower case
as `email`, and the password field itself as `password`. -/
theorem payload_normalised {D : Type} (f : JSString → JSString) (s : State) (o : Outcome D)
    (h : PassesGates s) :
    remoteCalls (handleSignUp f s o).effects =
      [{ name := trim s.first ++ [' '.toNat] ++ trim s.last
         email := f (trim s.email)
         password := s.password }] := by
  rw [remoteCalls_of_passes f s o h]
  rfl

/-- C4 at first name ` Jane `, last name `Doe`, e-mail `Jane@X.com`: the request carries the
name `Jane Doe` and the e-mail `jane@x.com`. -/
theorem payload_normalised_witness :
    PassesGates janeForm ∧
    remoteCalls (handleSignUp asciiLower janeForm (Outcome.fulfilled (0 : Nat))).effects =
      [{ name := utf16 "Jane Doe", email := utf16 "jane@x.com", password := utf16 "abcdef" }] :=
  have h : PassesGates janeForm := by unfold PassesGates AllFilled; decide
  ⟨h, (payload_normalised asciiLower janeForm (Outcome.fulfilled (0 : Nat)) h).trans (by decide)⟩

theorem handleSignUp_rejected {D : Type} (f : JSString → JSString) (s : State) (err : Err)
    (h : PassesGates s) :
    (handleSignUp f s (Outcome.rejected err) : Run D) =
      { awaiting := some { s with loading := true, disabled := true }
        final := finallyBlock
          (catchBlock { s with loading := true, disabled := true } err :
            State × List (Effect D)).1
        effects := Effect.userSignUp (payload f s) ::
          (catchBlock { s with loading := true, disabled := true } err :
            State × List (Effect D)).2 } := by
  rw [handleSignUp_of_passes f s _ h]
  rfl

theorem status_eq_iff (err : Err) : err.status = some 409 ↔ IsConflict err := by
  unfold Err.status IsConflict
  cases err.response with
  | none => simp
  | some r => simp

theorem serverMessage_or (err : Err) (b : JSString) :
    orDefault err.serverMessage b = (serverSaid err).getD b := by
  obtain ⟨resp, msg⟩ := err
  cases resp with
  | none => rfl
  | some r =>
    obtain ⟨st, data⟩ := r
    cases data with
    | none => rfl
    | some d =>
      obtain ⟨m⟩ := d
      cases m with
      | none => rfl
      | some t => cases t <;> rfl

theorem includes_network (err : Err) :
    (match err.message with
      | some m => includes m (utf16 "Network")
      | none => false) = true ↔ MentionsNetwork err := by
  unfold MentionsNetwork
  cases err.message with
  | none => simp
  | some m => simp [includes_iff]

/-- C5: for a form that passes the gates and a rejected remote call, (a) when the failure
carries status 409 the server e-mail error becomes the server's message when that is
non-empty and "Email already registered" otherwise, and no notification is emitted; (b) for
every other failure exactly one error notification is emitted, carrying the server's
message when that is non-empty, else "Network error, please check your connection" when
the error's message contains "Network", else "Something went wrong. Try again.", and the
five fields and the server e-mail error are unchanged; in both cases nothing is written to
the session and the panel is not signalled. -/
theorem remote_failure {D : Type} (f : JSString → JSString) (s : State) (err : Err)
    (h : PassesGates s) :
    (IsConflict err →
      (handleSignUp f s (Outcome.rejected err : Outcome D)).final.serverEmailError =
        (match serverSaid err with
          | some m => m
          | none => utf16 "Email already registered") ∧
      notifications (handleSignUp f s (Outcome.rejected err : Outcome D)).effects = []) ∧
    (¬ IsConflict err →
      notifications (handleSignUp f s (Outcome.rejected err : Outcome D)).effects =
        [((match serverSaid err with
            | some m => m
            | none =>
              if MentionsNetwork err then utf16 "Network error, please check your connection"
              else utf16 "Something went wrong. Try again."), Severity.error)] ∧
      (handleSignUp f s (Outcome.rejected err : Outcome D)).final.first = s.first ∧
      (handleSignUp f s (Outcome.rejected err : Outcome D)).final.last = s.last ∧
      (handleSignUp f s (Outcome.rejected err : Outcome D)).final.email = s.email ∧
      (handleSignUp f s (Outcome.rejected err : Outcome D)).final.password = s.password ∧
      (handleSignUp f s (Outcome.rejected err : Outcome D)).final.confirm = s.confirm ∧
      (handleSignUp f s (Outcome.rejected err : Outcome D)).final.serverEmailError
        = s.serverEmailError) ∧
    sessionWrites (handleSignUp f s (Outcome.rejected err : Outcome D)).effects = [] ∧
    panelSignals (handleSignUp f s (Outcome.rejected err : Outcome D)).effects = [] := by
  rw [handleSignUp_rejected f s err h]
  refine ⟨?_, ?_, ?_, ?_⟩
  · intro hc
    have h409 : err.status = some 409 := (status_eq_iff err).2 hc
    simp only [catchBlock, h409, if_true, finallyBlock, serverMessage_or]
    refine ⟨?_, rfl⟩
    cases serverSaid err <;> rfl
  · intro hc
    have h409 : ¬ err.status = some 409 := fun h0 => hc ((status_eq_iff err).1 h0)
    simp only [catchBlock, h409, if_false, finallyBlock, serverMessage_or, notifications]
    refine ⟨?_, trivial, trivial, trivial, trivial, trivial, trivial⟩
    cases serverSaid err with
    | some m => rfl
    | none =>
      by_cases hn : MentionsNetwork err
      · simp only [Option.getD_none, (includes_network err).2 hn, if_true, if_pos hn]
      · have hf : ¬ ((match err.message with
            | some m => includes m (utf16 "Network")
            | none => false) = true) := fun h0 => hn ((includes_network err).1 h0)
        simp only [Option.getD_none, hf, if_false, if_neg hn, Bool.false_eq_true]
  · simp only [catchBlock]
    split <;> rfl
  · simp only [catchBlock]
    split <;> rfl

/-- C5 at a form that passes the gates: a 409 with the server's message `Email taken`
sets that message on the e-mail field and a 409 without a message sets the default, both
with no notification; a status 500 with the server's message `Server down` notifies that
message although the error's message mentions `Network`; a status 500 with an empty server
message notifies "Something went wrong. Try again."; a thrown `Network Error` with no
response notifies the network message. -/
theorem remote_failure_witness :
    PassesGates janeForm ∧
    (IsConflict conflictSaidErr ∧
      (handleSignUp asciiLower janeForm
        (Outcome.rejected conflictSaidErr : Outcome Nat)).final.serverEmailError
        = utf16 "Email taken" ∧
      notifications (handleSignUp asciiLower janeForm
        (Outcome.rejected conflictSaidErr : Outcome Nat)).effects = []) ∧
    (IsConflict conflictErr ∧
      (handleSignUp asciiLower janeForm
        (Outcome.rejected conflictErr : Outcome Nat)).final.serverEmailError
        = utf16 "Email already registered" ∧
      notifications (handleSignUp asciiLower janeForm
        (Outcome.rejected conflictErr : Outcome Nat)).effects = []) ∧
    (¬ IsConflict serverSaidErr ∧
      notifications (handleSignUp asciiLower janeForm
        (Outcome.rejected serverSaidErr : Outcome Nat)).effects
        = [(utf16 "Server down", Severity.error)]) ∧
    (¬ IsConflict silentErr ∧
      notifications (handleSignUp asciiLower janeForm
        (Outcome.rejected silentErr : Outcome Nat)).effects
        = [(utf16 "Something went wrong. Try again.", Severity.error)]) ∧
    (¬ IsConflict networkErr ∧
      notifications (handleSignUp asciiLower janeForm
        (Outcome.rejected networkErr : Outcome Nat)).effects
        = [(utf16 "Network error, please check your connection", Severity.error)]) :=
  have h : PassesGates janeForm := by unfold PassesGates AllFilled; decide
  have h1 : IsConflict conflictSaidErr := by decide
  have h2 : IsConflict conflictErr := by decide
  have h3 : ¬ IsConflict serverSaidErr := by decide
  have h4 : ¬ IsConflict silentErr := by decide
  have h5 : ¬ IsConflict networkErr := by decide
  ⟨h,
    ⟨h1, ((remote_failure asciiLower janeForm conflictSaidErr h).1 h1).1.trans (by decide),
      ((remote_failure asciiLower janeForm conflictSaidErr h).1 h1).2⟩,
    ⟨h2, ((remote_failure asciiLower janeForm conflictErr h).1 h2).1.trans (by decide),
      ((remote_failure asciiLower janeForm conflictErr h).1 h2).2⟩,
    ⟨h3, ((remote_failure asciiLower janeForm serverSaidErr h).2.1 h3).1.trans (by decide)⟩,
    ⟨h4, ((remote_failure asciiLower janeForm silentErr h).2.1 h4).1.trans (by decide)⟩,
    ⟨h5, ((remote_failure asciiLower janeForm networkErr h).2.1 h5).1.trans (by decide)⟩⟩

theorem isFormValid_fst_iff {D : Type} (s : State) :
    (isFormValid s : Bool × List (Effect D)).1 = true ↔ PassesGates s := by
  constructor
  · intro hv
    by_cases h : AllFilled s
    · by_cases hl : 6 ≤ s.password.length
      · by_cases he : s.emailError ≠ [] ∨ s.matchError ≠ []
        · rw [isFormValid_of_inline s h hl he] at hv
          cases hv
        · simp only [not_or, not_not] at he
          exact ⟨h, hl, he.1, he.2⟩
      · rw [isFormValid_of_short s h (by omega)] at hv
        cases hv
    · have h0 : s.first = [] ∨ s.last = [] ∨ s.email = [] ∨ s.password = [] ∨ s.confirm = [] := by
        unfold AllFilled at h
        tauto
      rw [isFormValid_of_empty s h0] at hv
      cases hv
  · intro h
    rw [isFormValid_of_passes s h]

theorem handleSignUp_of_not_passes {D : Type} (f : JSString → JSString) (s : State)
    (o : Outcome D) (h : ¬ PassesGates s) :
    (handleSignUp f s o).awaiting = none ∧ (handleSignUp f s o).final = s ∧
    remoteCalls (handleSignUp f s o).effects = [] := by
  have hv : (isFormValid s : Bool × List (Effect D)).1 = false := by
    cases hb : (isFormValid s : Bool × List (Effect D)).1
    · rfl
    · exact absurd ((isFormValid_fst_iff s).1 hb) h
  have hes : (isFormValid s : Bool × List (Effect D))
      = (false, (isFormValid s : Bool × List (Effect D)).2) := by
    rw [← hv]
  rw [handleSignUp_of_rejected_locally f s o _ hes]
  refine ⟨rfl, rfl, ?_⟩
  simp only [isFormValid]
  split
  · rfl
  · split
    · rfl
    · split <;> rfl

/-- C6: starting from the idle state, for every form, validation state and outcome of the
remote call (fulfilled, rejected with status 409 or with anything else, or an error thrown
while the success path runs), `loading` and `disabled` are both false when `handleSignUp`
returns; they are true in the state held while the remote call is awaited, and that state
is entered exactly when the form passes the gates. -/
theorem flags_reset {D : Type} (f : JSString → JSString) (s : State) (o : Outcome D)
    (h1 : s.loading = false) (h2 : s.disabled = false) :
    (handleSignUp f s o).final.loading = false ∧
    (handleSignUp f s o).final.disabled = false ∧
    (∀ p, (handleSignUp f s o).awaiting = some p → p.loading = true ∧ p.disabled = true) ∧
    ((handleSignUp f s o).awaiting ≠ none ↔ PassesGates s) ∧
    ((handleSignUp f s o).awaiting ≠ none ↔ remoteCalls (handleSignUp f s o).effects ≠ []) := by
  by_cases hp : PassesGates s
  · have hc := remoteCalls_of_passes f s o hp
    rw [handleSignUp_of_passes f s o hp] at hc ⊢
    refine ⟨rfl, rfl, ?_, ?_, ?_⟩
    · intro p hp'
      simp only [Option.some.injEq] at hp'
      subst hp'
      exact ⟨rfl, rfl⟩
    · simp [hp]
    · simp [hc]
  · obtain ⟨ha, hf, hr⟩ := handleSignUp_of_not_passes f s o hp
    rw [ha, hf, hr]
    simp [h1, h2, hp]

/-- C6 at a form that passes the gates, when `setOpenAuth` throws after the session write
and the notification. -/
theorem flags_reset_witness :
    (janeForm.loading = false ∧ janeForm.disabled = false) ∧
    (handleSignUp asciiLower janeForm
      (Outcome.faulted (0 : Nat) Stage.setOpenAuth networkErr)).final.loading = false ∧
    (handleSignUp asciiLower janeForm
      (Outcome.faulted (0 : Nat) Stage.setOpenAuth networkErr)).final.disabled = false :=
  ⟨⟨rfl, rfl⟩,
    (flags_reset asciiLower janeForm (Outcome.faulted (0 : Nat) Stage.setOpenAuth networkErr)
      rfl rfl).1,
    (flags_reset asciiLower janeForm (Outcome.faulted (0 : Nat) Stage.setOpenAuth networkErr)
      rfl rfl).2.1⟩

/-- C7: for a form that passes the gates, when the remote call is fulfilled with data `d`,
`handleSignUp` writes exactly `d` to the session, emits exactly one notification, the
success "Sign-up successful!", calls `setOpenAuth(false)`, and leaves the e-mail error, the
server e-mail error and the mismatch error as they were. -/
theorem success_outcome {D : Type} (f : JSString → JSString) (s : State) (d : D)
    (h : PassesGates s) :
    sessionWrites (handleSignUp f s (Outcome.fulfilled d)).effects = [d] ∧
    notifications (handleSignUp f s (Outcome.fulfilled d)).effects
      = [(utf16 "Sign-up successful!", Severity.success)] ∧
    panelSignals (handleSignUp f s (Outcome.fulfilled d)).effects = [false] ∧
    (handleSignUp f s (Outcome.fulfilled d)).final.emailError = s.emailError ∧
    (handleSignUp f s (Outcome.fulfilled d)).final.serverEmailError = s.serverEmailError ∧
    (handleSignUp f s (Outcome.fulfilled d)).final.matchError = s.matchError ∧
    (handleSignUp f s (Outcome.fulfilled d)).effects =
      [.userSignUp (payload f s), .loginSuccess d,
        .openSnackbar (utf16 "Sign-up successful!") .success, .setOpenAuth false] := by
  rw [handleSignUp_of_passes f s _ h]
  exact ⟨rfl, rfl, rfl, rfl, rfl, rfl, rfl⟩

/-- C7 at a form that passes the gates and response data `7`. -/
theorem success_outcome_witness :
    PassesGates janeForm ∧
    sessionWrites (handleSignUp asciiLower janeForm (Outcome.fulfilled (7 : Nat))).effects = [7] ∧
    notifications (handleSignUp asciiLower janeForm (Outcome.fulfilled (7 : Nat))).effects
      = [(utf16 "Sign-up successful!", Severity.success)] ∧
    panelSignals (handleSignUp asciiLower janeForm (Outcome.fulfilled (7 : Nat))).effects
      = [false] :=
  have h : PassesGates janeForm := by unfold PassesGates AllFilled; decide
  ⟨h, (success_outcome asciiLower janeForm (7 : Nat) h).1,
    (success_outcome asciiLower janeForm (7 : Nat) h).2.1,
    (success_outcome asciiLower janeForm (7 : Nat) h).2.2.1⟩

/-! ## Editing the e-mail field -/

theorem emailChanged_of_fixed (value : JSString) (t : State) (h1 : t.email = value)
    (h2 : t.serverEmailError = utf16 "") : emailChanged value t = t := by
  cases t
  simp only at h1 h2
  subst h1 h2
  simp [emailChanged, handleEmailChange]

/-- C10: for every state and every new e-mail value, the field-change event of the e-mail
input gives a state whose server e-mail error is empty and whose e-mail is the new value,
with first name, last name, password, confirmation and both submission flags unchanged;
applying the same edit twice gives the same state as applying it once. -/
theorem emailChanged_clears_server_error (value : JSString) (s : State) :
    (emailChanged value s).serverEmailError = utf16 "" ∧
    (emailChanged value s).email = value ∧
    (emailChanged value s).first = s.first ∧
    (emailChanged value s).last = s.last ∧
    (emailChanged value s).password = s.password ∧
    (emailChanged value s).confirm = s.confirm ∧
    (emailChanged value s).loading = s.loading ∧
    (emailChanged value s).disabled = s.disabled ∧
    emailChanged value (emailChanged value s) = emailChanged value s := by
  have key : (emailChanged value s).serverEmailError = utf16 "" ∧
      (emailChanged value s).email = value ∧
      (emailChanged value s).first = s.first ∧
      (emailChanged value s).last = s.last ∧
      (emailChanged value s).password = s.password ∧
      (emailChanged value s).confirm = s.confirm ∧
      (emailChanged value s).loading = s.loading ∧
      (emailChanged value s).disabled = s.disabled := by
    unfold emailChanged
    simp only [handleEmailChange]
    split <;> exact ⟨rfl, rfl, rfl, rfl, rfl, rfl, rfl, rfl⟩
  obtain ⟨k1, k2, k3, k4, k5, k6, k7, k8⟩ := key
  exact ⟨k1, k2, k3, k4, k5, k6, k7, k8, emailChanged_of_fixed value _ k2 k1⟩

end SignUp
